import Mathlib

/-!
Shallow embedding of the real-time telemetry and alerting core of the
Sound Sentinel dashboard (TypeScript sources), together with proofs of the
specification's testable properties.

Embedded source files:
* `mobile_app/src/data/criticalSounds.ts` — static taxonomies and the
  classifier predicates `isCriticalSound` / `isImportantSound`;
* `mobile_app/src/components/ImprovedNotifications.tsx` — the notification
  manager (classification, dedup, capacity cap, auto-read timer,
  `markAsRead`, `clearAll`);
* `unnamed/part_000` — the `should_notify`-based notification manager
  variant (no classification, same dedup/cap logic);
* `frontend/src/components/AudioLevelChart.tsx` and `unnamed/part_001` —
  the rolling audio-level sample window (`draw`) and the nearest-sample
  tooltip query (`handleMouseMove`).

Timestamps are modelled as integer epoch milliseconds (in the sources they
are ISO strings converted via `new Date(t).getTime()`); audio levels and
confidences as rationals.
-/

namespace SoundSentinel

/-- JavaScript's `String.prototype.includes` on explicit character lists:
`charsContain l sub` is `true` iff `sub` occurs as a contiguous substring
of `l`. -/
def charsContain : List Char → List Char → Bool
  | [], sub => sub.isEmpty
  | c :: t, sub => List.isPrefixOf sub (c :: t) || charsContain t sub

/-- JavaScript's `toLowerCase` on the ASCII strings used by the
taxonomies, as a character-list map. -/
def lowerChars (s : String) : List Char := s.toList.map Char.toLower

/-- The call pattern `s.toLowerCase().includes(sub.toLowerCase())` used
throughout the classifier. -/
def includesLower (s sub : String) : Bool :=
  charsContain (lowerChars s) (lowerChars sub)

/-- `CRITICAL_SOUNDS` from `mobile_app/src/data/criticalSounds.ts`. -/
def CRITICAL_SOUNDS : List String :=
  [ "Fire", "Smoke alarm", "Fire alarm", "Burglar alarm", "Car alarm",
    "Siren", "Emergency vehicle", "Police car (siren)", "Ambulance (siren)",
    "Fire engine",
    "Water", "Running water", "Dripping tap", "Faucet", "Shower", "Bath",
    "Splash", "Gurgling",
    "Crying baby", "Baby cry", "Infant cry", "Child speech", "Screaming",
    "Shout", "Yell",
    "Glass break", "Window shatter", "Door slam", "Knock", "Bang", "Crash",
    "Impact",
    "Power tool", "Drill", "Saw", "Electric shaver", "Hair dryer",
    "Vacuum cleaner", "Blender",
    "Dog bark", "Dog growl", "Cat meow", "Insect buzz", "Bee", "Wasp",
    "Hiss",
    "Thunder", "Wind", "Storm", "Rain", "Hail", "Explosion", "Gunshot",
    "Fireworks" ]

/-- `HOUSEHOLD_SOUNDS` from `mobile_app/src/data/criticalSounds.ts`. -/
def HOUSEHOLD_SOUNDS : List String :=
  [ "Doorbell", "Telephone bell ringing", "Alarm clock", "Timer",
    "Microwave oven", "Dishwasher", "Washing machine", "Dryer",
    "Refrigerator", "Computer keyboard", "Typing", "Mouse click",
    "Printer", "Scanner" ]

/-- `isCriticalSound` from `criticalSounds.ts`: case-insensitive
bidirectional substring containment against `CRITICAL_SOUNDS`. -/
def isCriticalSound (soundType : String) : Bool :=
  CRITICAL_SOUNDS.any fun critical =>
    includesLower soundType critical || includesLower critical soundType

/-- `isImportantSound` from `criticalSounds.ts`: case-insensitive
bidirectional substring containment against `HOUSEHOLD_SOUNDS`. -/
def isImportantSound (soundType : String) : Bool :=
  HOUSEHOLD_SOUNDS.any fun household =>
    includesLower soundType household || includesLower household soundType

/-- An inbound `SoundDetectedEvent` (see the `handleSoundDetected`
handlers): `timestamp` in epoch milliseconds, `should_notify` absent
(`none`) or an explicit boolean. -/
structure SoundEvent where
  sound_type : String
  confidence : ℚ
  device_id : String
  timestamp : ℤ
  should_notify : Option Bool
deriving DecidableEq

/-- A per-device custom sound `{name, sound_type}` as consumed by the
notification manager (`sound_type` is `"important"`, `"specific"` or
`"excluded"`). -/
structure CustomSound where
  name : String
  sound_type : String
deriving DecidableEq

/-- The `Notification` record of
`mobile_app/src/components/ImprovedNotifications.tsx`. -/
structure Notification where
  id : String
  soundType : String
  confidence : ℚ
  deviceId : String
  deviceName : String
  timestamp : ℤ
  isCritical : Bool
  isImportant : Bool
  isRead : Bool
deriving DecidableEq

/-- The `Notification` record of `unnamed/part_000` (no
`isCritical`/`isImportant` fields). -/
structure Notification000 where
  id : String
  soundType : String
  confidence : ℚ
  deviceId : String
  deviceName : String
  timestamp : ℤ
  isRead : Bool
deriving DecidableEq

/-- The duplicate test of the `setNotifications` updater (both notification
manager variants): some retained notification has the same `soundType` and
a timestamp within 2000 ms of the incoming event's. -/
def isDuplicate (prev : List Notification) (sound_type : String)
    (timestamp : ℤ) : Bool :=
  prev.any fun n =>
    n.soundType == sound_type && decide (|n.timestamp - timestamp| < 2000)

/-- The `setNotifications` updater of `ImprovedNotifications.tsx` lines
61-72: drop duplicates, else `[notification, ...prev.slice(0, 99)]`. -/
def insertNotification (notification : Notification)
    (prev : List Notification) : List Notification :=
  if isDuplicate prev notification.soundType notification.timestamp then prev
  else notification :: prev.take 99

/-- Duplicate test of `unnamed/part_000` lines 75-78 (same logic on its
notification record). -/
def isDuplicate000 (prev : List Notification000) (sound_type : String)
    (timestamp : ℤ) : Bool :=
  prev.any fun n =>
    n.soundType == sound_type && decide (|n.timestamp - timestamp| < 2000)

/-- The `setNotifications` updater of `unnamed/part_000` lines 73-84. -/
def insertNotification000 (notification : Notification000)
    (prev : List Notification000) : List Notification000 :=
  if isDuplicate000 prev notification.soundType notification.timestamp then
    prev
  else notification :: prev.take 99

/-- The notification constructed by `ImprovedNotifications.tsx` lines
49-59; `now` is the `Date.now()` value used for the id. -/
def mkNotification (e : SoundEvent) (now : ℤ) (isCrit isImp : Bool) :
    Notification :=
  { id := e.device_id ++ "-" ++ toString now
  , soundType := e.sound_type
  , confidence := e.confidence
  , deviceId := e.device_id
  , deviceName := "Устройство " ++ e.device_id.take 8
  , timestamp := e.timestamp
  , isCritical := isCrit
  , isImportant := isImp
  , isRead := false }

/-- The notification constructed by `unnamed/part_000` lines 61-69. -/
def mkNotification000 (e : SoundEvent) (now : ℤ) : Notification000 :=
  { id := e.device_id ++ "-" ++ toString now
  , soundType := e.sound_type
  , confidence := e.confidence
  , deviceId := e.device_id
  , deviceName := "Device " ++ e.device_id.takeRight 4
  , timestamp := e.timestamp
  , isRead := false }

/-- The custom-important test of `ImprovedNotifications.tsx` lines 41-45:
some custom sound of the device has `sound_type === 'important'` and its
name (lowercased) contains the event's sound type (lowercased). -/
def isCustomImportant (deviceImportantSounds : List CustomSound)
    (sound_type : String) : Bool :=
  deviceImportantSounds.any fun sound =>
    sound.sound_type == "important" && includesLower sound.name sound_type

/-- Engine state: the `notifications` React state plus the ids of the
auto-read `setTimeout` callbacks that have been scheduled and have not yet
fired (the sources offer no cancellation handle for them). -/
structure EngineState where
  notifications : List Notification
  pending : List String
deriving DecidableEq

/-- `handleSoundDetected` of `ImprovedNotifications.tsx` lines 27-83.
`excluded` stands for the imported `isExcludedSound` (its defining module
is absent from the sources, so it is kept abstract); `customSounds` is the
per-device custom sound map. The returned boolean records whether
`onSoundDetected` was invoked (it is, on every path). -/
def handleSoundDetected (excluded : String → Bool)
    (customSounds : String → List CustomSound) (e : SoundEvent) (now : ℤ)
    (st : EngineState) : EngineState × Bool :=
  if excluded e.sound_type then (st, true)
  else
    let isCritical := isCriticalSound e.sound_type
    let isImportant := isImportantSound e.sound_type
    let isCustomImp := isCustomImportant (customSounds e.device_id) e.sound_type
    if isCritical || isImportant || isCustomImp then
      let notification := mkNotification e now isCritical (isImportant || isCustomImp)
      ({ notifications := insertNotification notification st.notifications
       , pending := st.pending ++ [notification.id] }, true)
    else (st, true)

/-- `markAsRead` of `ImprovedNotifications.tsx` lines 136-140. -/
def markAsRead (id : String) (st : EngineState) : EngineState :=
  { st with notifications := st.notifications.map fun n =>
      if n.id == id then { n with isRead := true } else n }

/-- `clearAll` of `ImprovedNotifications.tsx` lines 142-144: it only
empties the `notifications` state; no timer is touched. -/
def clearAll (st : EngineState) : EngineState :=
  { st with notifications := [] }

/-- The auto-read `setTimeout` callback of `ImprovedNotifications.tsx`
lines 75-79 firing for `id`: flips `isRead` of the matching notification
(if still present) and consumes the pending timer. -/
def fireAutoRead (id : String) (st : EngineState) : EngineState :=
  { notifications := st.notifications.map fun n =>
      if n.id == id then { n with isRead := true } else n
  , pending := st.pending.erase id }

/-- Engine state for the `unnamed/part_000` variant. -/
structure EngineState000 where
  notifications : List Notification000
  pending : List String
deriving DecidableEq

/-- `handleSoundDetected` of `unnamed/part_000` lines 50-92: an explicit
`should_notify === false` suppresses everything; otherwise the
notification is built unconditionally (no classification) and inserted
through the dedup/cap updater, and an auto-read timer is scheduled. The
returned boolean records whether `onSoundDetected` was invoked: this
handler never calls it on any path. -/
def handleSoundDetected000 (e : SoundEvent) (now : ℤ) (st : EngineState000) :
    EngineState000 × Bool :=
  if e.should_notify == some false then (st, false)
  else
    let notification := mkNotification000 e now
    ({ notifications := insertNotification000 notification st.notifications
     , pending := st.pending ++ [notification.id] }, false)

/-- `markAsRead` of `unnamed/part_000` lines 104-108. -/
def markAsRead000 (id : String) (st : EngineState000) : EngineState000 :=
  { st with notifications := st.notifications.map fun n =>
      if n.id == id then { n with isRead := true } else n }

/-- `clearAll` of `unnamed/part_000` lines 110-112. -/
def clearAll000 (st : EngineState000) : EngineState000 :=
  { st with notifications := [] }

/-- The auto-read `setTimeout` callback of `unnamed/part_000` lines
87-91 firing for `id`. -/
def fireAutoRead000 (id : String) (st : EngineState000) : EngineState000 :=
  { notifications := st.notifications.map fun n =>
      if n.id == id then { n with isRead := true } else n
  , pending := st.pending.erase id }

/-- The operations that mutate the notification store of the
`ImprovedNotifications.tsx` manager. -/
inductive EngineOp where
  | sound (e : SoundEvent) (now : ℤ)
  | markRead (id : String)
  | doClearAll
  | autoRead (id : String)

/-- One event-loop step of the `ImprovedNotifications.tsx` manager. -/
def stepEngine (excluded : String → Bool)
    (customSounds : String → List CustomSound) (st : EngineState) :
    EngineOp → EngineState
  | .sound e now => (handleSoundDetected excluded customSounds e now st).1
  | .markRead id => markAsRead id st
  | .doClearAll => clearAll st
  | .autoRead id => fireAutoRead id st

/-- A run of the `ImprovedNotifications.tsx` manager from its initial
(empty) state. -/
def runEngine (excluded : String → Bool)
    (customSounds : String → List CustomSound) (ops : List EngineOp) :
    EngineState :=
  ops.foldl (stepEngine excluded customSounds) ⟨[], []⟩

/-- The operations that mutate the notification store of the
`unnamed/part_000` manager. -/
inductive EngineOp000 where
  | sound (e : SoundEvent) (now : ℤ)
  | markRead (id : String)
  | doClearAll
  | autoRead (id : String)

/-- One event-loop step of the `unnamed/part_000` manager. -/
def stepEngine000 (st : EngineState000) : EngineOp000 → EngineState000
  | .sound e now => (handleSoundDetected000 e now st).1
  | .markRead id => markAsRead000 id st
  | .doClearAll => clearAll000 st
  | .autoRead id => fireAutoRead000 id st

/-- A run of the `unnamed/part_000` manager from its initial (empty)
state. -/
def runEngine000 (ops : List EngineOp000) : EngineState000 :=
  ops.foldl stepEngine000 ⟨[], []⟩

/-- A `(timestamp, level)` audio sample of the rolling chart buffer
(`audioLevelsRef`), timestamp in epoch milliseconds. -/
structure AudioSample where
  timestamp : ℤ
  level : ℚ
deriving DecidableEq

/-- The buffer update performed at the top of each `draw` tick
(`AudioLevelChart.tsx` frontend lines 56-60, `unnamed/part_001` lines
60-64): push `(now, currentLevel)` if `currentLevel > 0`, then keep only
samples with `now - timestamp < timeWindow`. -/
def draw (timeWindow : ℤ) (currentLevel : ℚ) (now : ℤ)
    (buf : List AudioSample) : List AudioSample :=
  let pushed := if 0 < currentLevel then buf ++ [⟨now, currentLevel⟩] else buf
  pushed.filter fun p => decide (now - p.timestamp < timeWindow)

/-- The horizontal time-to-pixel map used by `draw` and `handleMouseMove`:
`x(t) = (t - (now - timeWindow)) / timeWindow * width`. -/
def xCoord (now timeWindow : ℤ) (width : ℚ) (t : ℤ) : ℚ :=
  ((t - (now - timeWindow) : ℤ) : ℚ) / (timeWindow : ℚ) * width

/-- The nearest-sample query of `handleMouseMove` (`AudioLevelChart.tsx`
frontend lines 31-48, `unnamed/part_001` lines 35-52): on an empty buffer
the handler returns without producing a tooltip; otherwise a JS `reduce`
keeps the point whose pixel x-coordinate is strictly closer to the
pointer. -/
def closestPoint (now timeWindow : ℤ) (width x : ℚ) :
    List AudioSample → Option AudioSample
  | [] => none
  | p :: rest => some <| rest.foldl
      (fun prev curr =>
        if |xCoord now timeWindow width curr.timestamp - x| <
            |xCoord now timeWindow width prev.timestamp - x| then curr
        else prev) p

/-- Case-insensitive bidirectional substring containment, written from the
spec's words ("either string may contain the other") as a proposition on
character lists, for comparison with the source's matching code. -/
def BidirectionalMatch (a b : String) : Prop :=
  lowerChars a <:+: lowerChars b ∨ lowerChars b <:+: lowerChars a

/-- Spec-side static taxonomy match: some taxonomy entry bidirectionally
substring-matches the event's sound type. -/
def StaticMatch (taxonomy : List String) (soundType : String) : Prop :=
  ∃ entry ∈ taxonomy, BidirectionalMatch soundType entry

/-- Spec-side custom-sound match as the claim states it: some custom sound
of type `"important"` whose name bidirectionally substring-matches the
event's sound type. -/
def CustomBidirectionalMatch (sounds : List CustomSound)
    (soundType : String) : Prop :=
  ∃ s ∈ sounds, s.sound_type = "important" ∧ BidirectionalMatch soundType s.name

/-! ### Concrete scenario inputs -/

/-- A "Fire alarm" detection event at time `t` from the device
`dev-0001`. -/
def fireEvent (t : ℤ) : SoundEvent := ⟨"Fire alarm", 1, "dev-0001", t, none⟩

/-- Scenario B of the spec: "Fire alarm" events at 0 ms, 1500 ms and
2500 ms for the same device. -/
def scenarioB : List EngineOp :=
  [.sound (fireEvent 0) 0, .sound (fireEvent 1500) 1500,
   .sound (fireEvent 2500) 2500]

/-- The `i`-th of 101 pairwise non-duplicate events (timestamps are
2000 ms apart, so none falls in another's dedup window). -/
def distinctEvent (i : ℕ) : SoundEvent :=
  ⟨"Fire alarm", 1, "device-A", 2000 * (i : ℤ), none⟩

/-- Scenario D of the spec: 101 distinct (non-duplicate) notifications
pushed through the `unnamed/part_000` manager. -/
def scenarioD : List EngineOp000 :=
  (List.range 101).map fun i => .sound (distinctEvent i) (2000 * (i : ℤ))

/-! ### Helper lemmas -/

/-- `charsContain` decides contiguous-substring containment. -/
theorem charsContain_iff (l sub : List Char) :
    charsContain l sub = true ↔ sub <:+: l := by
  induction l with
  | nil =>
    simp [charsContain, List.isEmpty_iff, List.infix_nil]
  | cons c t ih =>
    simp only [charsContain, Bool.or_eq_true, List.isPrefixOf_iff_prefix, ih,
      List.infix_cons_iff]

/-- The `s.toLowerCase().includes(sub.toLowerCase())` pattern decides
case-insensitive substring containment. -/
theorem includesLower_iff (s sub : String) :
    includesLower s sub = true ↔ lowerChars sub <:+: lowerChars s := by
  unfold includesLower
  exact charsContain_iff _ _

/-- A JS-style `reduce` keeping the strictly closer element returns a
member of the list that minimises the distance functional. -/
theorem foldl_closest_spec {α : Type} (g : α → ℚ) (a : α) (l : List α) :
    (l.foldl (fun prev curr => if g curr < g prev then curr else prev) a)
      ∈ a :: l ∧
    ∀ q ∈ a :: l,
      g (l.foldl (fun prev curr => if g curr < g prev then curr else prev) a)
        ≤ g q := by
  induction l generalizing a with
  | nil => simp
  | cons b t ih =>
    have step : List.foldl (fun prev curr => if g curr < g prev then curr else prev)
        a (b :: t) =
        List.foldl (fun prev curr => if g curr < g prev then curr else prev)
          (if g b < g a then b else a) t := rfl
    have h := ih (if g b < g a then b else a)
    have hchoice_a : g (if g b < g a then b else a) ≤ g a := by
      split
      · exact le_of_lt (by assumption)
      · exact le_refl _
    have hchoice_b : g (if g b < g a then b else a) ≤ g b := by
      split
      · exact le_refl _
      · exact le_of_not_lt (by assumption)
    have hres_le : g (List.foldl
        (fun prev curr => if g curr < g prev then curr else prev)
        (if g b < g a then b else a) t) ≤ g (if g b < g a then b else a) :=
      h.2 _ (List.mem_cons_self _ _)
    constructor
    · rw [step]
      rcases List.mem_cons.mp h.1 with hm | hm
      · rw [hm]
        split
        · exact List.mem_cons_of_mem _ (List.mem_cons_self _ _)
        · exact List.mem_cons_self _ _
      · exact List.mem_cons_of_mem _ (List.mem_cons_of_mem _ hm)
    · intro q hq
      rw [step]
      rcases List.mem_cons.mp hq with rfl | hq'
      · exact le_trans hres_le hchoice_a
      rcases List.mem_cons.mp hq' with rfl | hq''
      · exact le_trans hres_le hchoice_b
      · exact h.2 _ (List.mem_cons_of_mem _ hq'')

/-- The spec's dedup relation between two retained notifications: equal
`soundType` and equal `deviceId` force timestamps at least
`DEDUP_WINDOW_MS` (2000 ms) apart. -/
def DedupOK (n m : Notification) : Prop :=
  n.soundType = m.soundType → n.deviceId = m.deviceId →
    2000 ≤ |n.timestamp - m.timestamp|

/-- Same relation on the `unnamed/part_000` notification record. -/
def DedupOK000 (n m : Notification000) : Prop :=
  n.soundType = m.soundType → n.deviceId = m.deviceId →
    2000 ≤ |n.timestamp - m.timestamp|

theorem pairwise_insertNotification {nf : Notification}
    {prev : List Notification} (hp : List.Pairwise DedupOK prev) :
    List.Pairwise DedupOK (insertNotification nf prev) := by
  unfold insertNotification
  split
  · exact hp
  next hdup =>
    refine List.Pairwise.cons ?_ (hp.sublist (List.take_sublist 99 prev))
    intro m hm hsound _
    have hmem : m ∈ prev := (List.take_sublist 99 prev).subset hm
    have hno : ¬ (m.soundType == nf.soundType &&
        decide (|m.timestamp - nf.timestamp| < 2000)) = true := by
      intro hc
      exact hdup (List.any_eq_true.mpr ⟨m, hmem, hc⟩)
    simp only [Bool.and_eq_true, beq_iff_eq, decide_eq_true_eq, not_and,
      not_lt] at hno
    rw [abs_sub_comm]
    exact hno hsound.symm

theorem pairwise_insertNotification000 {nf : Notification000}
    {prev : List Notification000} (hp : List.Pairwise DedupOK000 prev) :
    List.Pairwise DedupOK000 (insertNotification000 nf prev) := by
  unfold insertNotification000
  split
  · exact hp
  next hdup =>
    refine List.Pairwise.cons ?_ (hp.sublist (List.take_sublist 99 prev))
    intro m hm hsound _
    have hmem : m ∈ prev := (List.take_sublist 99 prev).subset hm
    have hno : ¬ (m.soundType == nf.soundType &&
        decide (|m.timestamp - nf.timestamp| < 2000)) = true := by
      intro hc
      exact hdup (List.any_eq_true.mpr ⟨m, hmem, hc⟩)
    simp only [Bool.and_eq_true, beq_iff_eq, decide_eq_true_eq, not_and,
      not_lt] at hno
    rw [abs_sub_comm]
    exact hno hsound.symm

/-- The read-flag map used by `markAsRead` and the auto-read timers keeps
`soundType`, `deviceId` and `timestamp` intact, so it transports the dedup
relation. -/
theorem dedupOK_readMap (id : String) (a b : Notification) (h : DedupOK a b) :
    DedupOK (if a.id == id then { a with isRead := true } else a)
      (if b.id == id then { b with isRead := true } else b) := by
  unfold DedupOK at *
  split <;> split <;> exact h

theorem dedupOK000_readMap (id : String) (a b : Notification000)
    (h : DedupOK000 a b) :
    DedupOK000 (if a.id == id then { a with isRead := true } else a)
      (if b.id == id then { b with isRead := true } else b) := by
  unfold DedupOK000 at *
  split <;> split <;> exact h

theorem pairwise_stepEngine (excluded : String → Bool)
    (customSounds : String → List CustomSound) (st : EngineState)
    (op : EngineOp) (hp : List.Pairwise DedupOK st.notifications) :
    List.Pairwise DedupOK (stepEngine excluded customSounds st op).notifications := by
  cases op with
  | sound e now =>
    show List.Pairwise DedupOK
      (handleSoundDetected excluded customSounds e now st).1.notifications
    unfold handleSoundDetected
    split
    · exact hp
    · dsimp only
      split
      · exact pairwise_insertNotification hp
      · exact hp
  | markRead id => exact hp.map _ (dedupOK_readMap id)
  | doClearAll => exact List.Pairwise.nil
  | autoRead id => exact hp.map _ (dedupOK_readMap id)

theorem pairwise_stepEngine000 (st : EngineState000) (op : EngineOp000)
    (hp : List.Pairwise DedupOK000 st.notifications) :
    List.Pairwise DedupOK000 (stepEngine000 st op).notifications := by
  cases op with
  | sound e now =>
    show List.Pairwise DedupOK000
      (handleSoundDetected000 e now st).1.notifications
    unfold handleSoundDetected000
    split
    · exact hp
    · exact pairwise_insertNotification000 hp
  | markRead id => exact hp.map _ (dedupOK000_readMap id)
  | doClearAll => exact List.Pairwise.nil
  | autoRead id => exact hp.map _ (dedupOK000_readMap id)

theorem pairwise_foldl_stepEngine (excluded : String → Bool)
    (customSounds : String → List CustomSound) (ops : List EngineOp) :
    ∀ st : EngineState, List.Pairwise DedupOK st.notifications →
      List.Pairwise DedupOK
        (ops.foldl (stepEngine excluded customSounds) st).notifications := by
  induction ops with
  | nil => exact fun _ h => h
  | cons op rest ih =>
    intro st hp
    exact ih _ (pairwise_stepEngine excluded customSounds st op hp)

theorem pairwise_foldl_stepEngine000 (ops : List EngineOp000) :
    ∀ st : EngineState000, List.Pairwise DedupOK000 st.notifications →
      List.Pairwise DedupOK000
        (ops.foldl stepEngine000 st).notifications := by
  induction ops with
  | nil => exact fun _ h => h
  | cons op rest ih =>
    intro st hp
    exact ih _ (pairwise_stepEngine000 st op hp)

theorem length_insertNotification_le {nf : Notification}
    {prev : List Notification} (hp : prev.length ≤ 100) :
    (insertNotification nf prev).length ≤ 100 := by
  unfold insertNotification
  split
  · exact hp
  · have := List.length_take 99 prev
    simp only [List.length_cons, this]
    omega

theorem length_insertNotification000_le {nf : Notification000}
    {prev : List Notification000} (hp : prev.length ≤ 100) :
    (insertNotification000 nf prev).length ≤ 100 := by
  unfold insertNotification000
  split
  · exact hp
  · have := List.length_take 99 prev
    simp only [List.length_cons, this]
    omega

theorem length_stepEngine_le (excluded : String → Bool)
    (customSounds : String → List CustomSound) (st : EngineState)
    (op : EngineOp) (hp : st.notifications.length ≤ 100) :
    (stepEngine excluded customSounds st op).notifications.length ≤ 100 := by
  cases op with
  | sound e now =>
    show (handleSoundDetected excluded customSounds e now st).1.notifications.length ≤ 100
    unfold handleSoundDetected
    split
    · exact hp
    · dsimp only
      split
      · exact length_insertNotification_le hp
      · exact hp
  | markRead id =>
    show (markAsRead id st).notifications.length ≤ 100
    simpa [markAsRead] using hp
  | doClearAll =>
    show (clearAll st).notifications.length ≤ 100
    simp [clearAll]
  | autoRead id =>
    show (fireAutoRead id st).notifications.length ≤ 100
    simpa [fireAutoRead] using hp

theorem length_stepEngine000_le (st : EngineState000) (op : EngineOp000)
    (hp : st.notifications.length ≤ 100) :
    (stepEngine000 st op).notifications.length ≤ 100 := by
  cases op with
  | sound e now =>
    show (handleSoundDetected000 e now st).1.notifications.length ≤ 100
    unfold handleSoundDetected000
    split
    · exact hp
    · exact length_insertNotification000_le hp
  | markRead id =>
    show (markAsRead000 id st).notifications.length ≤ 100
    simpa [markAsRead000] using hp
  | doClearAll =>
    show (clearAll000 st).notifications.length ≤ 100
    simp [clearAll000]
  | autoRead id =>
    show (fireAutoRead000 id st).notifications.length ≤ 100
    simpa [fireAutoRead000] using hp

theorem length_foldl_stepEngine_le (excluded : String → Bool)
    (customSounds : String → List CustomSound) (ops : List EngineOp) :
    ∀ st : EngineState, st.notifications.length ≤ 100 →
      (ops.foldl (stepEngine excluded customSounds) st).notifications.length ≤ 100 := by
  induction ops with
  | nil => exact fun _ h => h
  | cons op rest ih =>
    intro st hp
    exact ih _ (length_stepEngine_le excluded customSounds st op hp)

theorem length_foldl_stepEngine000_le (ops : List EngineOp000) :
    ∀ st : EngineState000, st.notifications.length ≤ 100 →
      (ops.foldl stepEngine000 st).notifications.length ≤ 100 := by
  induction ops with
  | nil => exact fun _ h => h
  | cons op rest ih =>
    intro st hp
    exact ih _ (length_stepEngine000_le st op hp)

/-! ### Claims -/

/-- Claim C1: in both notification-manager variants, any two notifications
retained together in the store with equal `soundType` and equal `deviceId`
have timestamps at least `DEDUP_WINDOW_MS` (2000 ms) apart, after any
sequence of operations from the initial state; and in Scenario B, of the
"Fire alarm" events at 0 ms, 1500 ms and 2500 ms for one device, the
second is dropped as a duplicate while the first and third are
accepted. -/
theorem claim_C1_dedup_invariant :
    (∀ (excluded : String → Bool)
       (customSounds : String → List CustomSound) (ops : List EngineOp),
        List.Pairwise DedupOK
          (runEngine excluded customSounds ops).notifications) ∧
    (∀ ops : List EngineOp000,
        List.Pairwise DedupOK000 (runEngine000 ops).notifications) ∧
    (runEngine (fun _ => false) (fun _ => []) scenarioB).notifications =
      [mkNotification (fireEvent 2500) 2500 true false,
       mkNotification (fireEvent 0) 0 true false] := by
  refine ⟨?_, ?_, by decide⟩
  · intro excluded customSounds ops
    exact pairwise_foldl_stepEngine excluded customSounds ops ⟨[], []⟩
      List.Pairwise.nil
  · intro ops
    exact pairwise_foldl_stepEngine000 ops ⟨[], []⟩ List.Pairwise.nil

/-- Witness for C1: the dedup relation, instantiated on the two
notifications the Scenario B run retains. -/
theorem claim_C1_dedup_invariant_witness :
    List.Pairwise DedupOK
      (runEngine (fun _ => false) (fun _ => []) scenarioB).notifications :=
  claim_C1_dedup_invariant.1 (fun _ => false) (fun _ => []) scenarioB

/-- Claim C2: in both notification-manager variants the store never
exceeds `MAX_NOTIFICATIONS` (100) entries after any operation sequence;
and in Scenario D, after 101 pairwise non-duplicate insertions the store
holds exactly the notifications of the 100 most recent events, newest
first, with the single oldest evicted. -/
theorem claim_C2_capacity_invariant :
    (∀ (excluded : String → Bool)
       (customSounds : String → List CustomSound) (ops : List EngineOp),
        (runEngine excluded customSounds ops).notifications.length ≤ 100) ∧
    (∀ ops : List EngineOp000,
        (runEngine000 ops).notifications.length ≤ 100) ∧
    (runEngine000 scenarioD).notifications =
      (List.range 100).map
        (fun k => mkNotification000 (distinctEvent (100 - k))
          (2000 * ((100 - k : ℕ) : ℤ))) ∧
    (runEngine000 scenarioD).notifications.length = 100 ∧
    mkNotification000 (distinctEvent 0) 0 ∉
      (runEngine000 scenarioD).notifications := by
  have heq : (runEngine000 scenarioD).notifications =
      (List.range 100).map
        (fun k => mkNotification000 (distinctEvent (100 - k))
          (2000 * ((100 - k : ℕ) : ℤ))) := by
    set_option maxRecDepth 40000 in decide
  refine ⟨?_, ?_, heq, ?_, ?_⟩
  · intro excluded customSounds ops
    exact length_foldl_stepEngine_le excluded customSounds ops ⟨[], []⟩
      (by simp)
  · intro ops
    exact length_foldl_stepEngine000_le ops ⟨[], []⟩ (by simp)
  · rw [heq]
    simp
  · rw [heq]
    set_option maxRecDepth 40000 in decide

/-- Witness for C2: the capacity bound instantiated on the Scenario D
run. -/
theorem claim_C2_capacity_invariant_witness :
    (runEngine000 scenarioD).notifications.length ≤ 100 :=
  claim_C2_capacity_invariant.2.1 scenarioD

/-- Counterexample to C3 as stated: "Dishwasher" is itself an entry of the
static household taxonomy (`HOUSEHOLD_SOUNDS`), so the classifier yields
important for it, and the engine inserts a notification instead of
dropping the event. -/
theorem claim_C3_counterexample :
    isImportantSound "Dishwasher" = true ∧
    (handleSoundDetected (fun _ => false) (fun _ => [])
        ⟨"Dishwasher", 1, "device-A", 0, none⟩ 0 ⟨[], []⟩).1.notifications =
      [mkNotification ⟨"Dishwasher", 1, "device-A", 0, none⟩ 0 false true] := by
  decide

/-- Claim C3 (amended): a "Dishwasher" event does have a static-taxonomy
match — "Dishwasher" is in the household list — so a non-excluded
"Dishwasher" event is classified important (never critical) and a
notification is inserted; an event whose sound type matches neither
taxonomy nor any custom sound (e.g. "Quokka") is classified neither
critical nor important and is dropped with no notification, the event
still being forwarded downstream. -/
theorem claim_C3_dishwasher_classified_important :
    (isCriticalSound "Dishwasher" = false ∧
     isImportantSound "Dishwasher" = true) ∧
    (∀ (customSounds : String → List CustomSound) (conf : ℚ) (dev : String)
       (ts now : ℤ) (st : EngineState),
        (handleSoundDetected (fun _ => false) customSounds
            ⟨"Dishwasher", conf, dev, ts, none⟩ now st).1.notifications =
          insertNotification
            (mkNotification ⟨"Dishwasher", conf, dev, ts, none⟩ now false true)
            st.notifications) ∧
    (∀ (customSounds : String → List CustomSound) (conf : ℚ) (dev : String)
       (ts now : ℤ) (st : EngineState),
        isCustomImportant (customSounds dev) "Quokka" = false →
        handleSoundDetected (fun _ => false) customSounds
            ⟨"Quokka", conf, dev, ts, none⟩ now st = (st, true)) := by
  refine ⟨⟨by decide, by decide⟩, ?_, ?_⟩
  · intro customSounds conf dev ts now st
    simp [handleSoundDetected,
      show isCriticalSound "Dishwasher" = false from by decide,
      show isImportantSound "Dishwasher" = true from by decide]
  · intro customSounds conf dev ts now st h
    simp [handleSoundDetected,
      show isCriticalSound "Quokka" = false from by decide,
      show isImportantSound "Quokka" = false from by decide, h]

/-- Witness for C3 (amended): the no-match branch evaluated on a concrete
"Quokka" event with no custom sounds. -/
theorem claim_C3_witness :
    handleSoundDetected (fun _ => false) (fun _ => [])
        ⟨"Quokka", 1, "device-A", 0, none⟩ 0 ⟨[], []⟩ = (⟨[], []⟩, true) :=
  claim_C3_dishwasher_classified_important.2.2 (fun _ => []) 1 "device-A" 0 0
    ⟨[], []⟩ (by decide)

/-- Counterexample to C4 as stated: on a "Baby cry" event with
`should_notify: false` the `unnamed/part_000` handler creates no
notification, but it also does not deliver the event downstream — the
returned flag records that `onSoundDetected` was not invoked. -/
theorem claim_C4_counterexample :
    handleSoundDetected000 ⟨"Baby cry", 1, "device-A", 0, some false⟩ 0
        ⟨[], []⟩ = (⟨[], []⟩, false) := by
  decide

/-- Claim C4 (amended): `should_notify === false` suppresses the
notification (and the auto-read timer) unconditionally, but the
`unnamed/part_000` handler never invokes the registered `onSoundDetected`
consumer on any path, so no event — suppressed or accepted — is delivered
downstream through it. -/
theorem claim_C4_should_notify_false_suppresses :
    (∀ (e : SoundEvent) (now : ℤ) (st : EngineState000),
        e.should_notify = some false →
        handleSoundDetected000 e now st = (st, false)) ∧
    (∀ (e : SoundEvent) (now : ℤ) (st : EngineState000),
        (handleSoundDetected000 e now st).2 = false) := by
  constructor
  · intro e now st h
    simp [handleSoundDetected000, h]
  · intro e now st
    unfold handleSoundDetected000
    split <;> rfl

/-- Witness for C4 (amended): the suppression branch evaluated on a
concrete suppressed event. -/
theorem claim_C4_witness :
    handleSoundDetected000 ⟨"Baby cry", 1, "device-B", 5, some false⟩ 5
        ⟨[], []⟩ = (⟨[], []⟩, false) :=
  claim_C4_should_notify_false_suppresses.1 _ 5 ⟨[], []⟩ rfl

/-- Counterexample to C5 as stated: after one accepted "Fire alarm" event
the store holds one notification with a scheduled auto-read timer;
`clearAll` empties the store but the removed entry's timer is still
pending afterwards — nothing is cancelled. -/
theorem claim_C5_counterexample :
    (runEngine (fun _ => false) (fun _ => [])
        [.sound (fireEvent 0) 0]).notifications.map (fun n => n.id) =
      ["dev-0001-0"] ∧
    (clearAll (runEngine (fun _ => false) (fun _ => [])
        [.sound (fireEvent 0) 0])).notifications = [] ∧
    (clearAll (runEngine (fun _ => false) (fun _ => [])
        [.sound (fireEvent 0) 0])).pending = ["dev-0001-0"] := by
  decide

/-- Claim C5 (amended): `clearAll` resets the store to empty but cancels
no pending auto-read timer (the pending list is untouched); a pending
auto-read callback that fires after the clear finds no matching
notification and leaves the (empty) store unchanged, so no state is
mutated for a removed notification. -/
theorem claim_C5_clearAll_no_cancel :
    ∀ st : EngineState,
      clearAll st = ⟨[], st.pending⟩ ∧
      ∀ id : String, (fireAutoRead id (clearAll st)).notifications = [] := by
  intro st
  exact ⟨rfl, fun _ => rfl⟩

/-- Witness for C5 (amended): `clearAll` evaluated on a concrete state
with one pending timer. -/
theorem claim_C5_witness :
    clearAll (⟨[], ["dev-0001-0"]⟩ : EngineState) = ⟨[], ["dev-0001-0"]⟩ :=
  (claim_C5_clearAll_no_cancel ⟨[], ["dev-0001-0"]⟩).1

/-- Claim C6: after any buffer-update tick of the chart (hence after any
sequence of them, the previous buffer being arbitrary), every retained
sample satisfies `now - sample.timestamp < timeWindow`. -/
theorem claim_C6_window_invariant :
    ∀ (timeWindow : ℤ) (currentLevel : ℚ) (now : ℤ)
      (buf : List AudioSample),
      ∀ p ∈ draw timeWindow currentLevel now buf,
        now - p.timestamp < timeWindow := by
  intro timeWindow currentLevel now buf p hp
  unfold draw at hp
  have h := (List.mem_filter.mp hp).2
  exact of_decide_eq_true h

/-- Witness for C6: the invariant evaluated on a tick that both inserts a
fresh sample and evicts a stale one. -/
theorem claim_C6_witness :
    (100 : ℤ) - 100 < 5000 :=
  claim_C6_window_invariant 5000 5 100 [⟨-10000, 3⟩] ⟨100, 5⟩ (by decide)

/-- Claim C7: a tick with `currentLevel ≤ 0` appends nothing — the buffer
is only purged of stale samples — while a tick with `currentLevel > 0`
appends exactly the one sample `(now, currentLevel)` after the same
purge. -/
theorem claim_C7_ingest_appends :
    ∀ (timeWindow : ℤ) (currentLevel : ℚ) (now : ℤ)
      (buf : List AudioSample),
      (currentLevel ≤ 0 →
        draw timeWindow currentLevel now buf =
          buf.filter fun p => decide (now - p.timestamp < timeWindow)) ∧
      (0 < currentLevel → 0 < timeWindow →
        draw timeWindow currentLevel now buf =
          (buf.filter fun p => decide (now - p.timestamp < timeWindow)) ++
            [⟨now, currentLevel⟩]) := by
  intro timeWindow currentLevel now buf
  constructor
  · intro h
    unfold draw
    rw [if_neg (not_lt.mpr h)]
  · intro hl hw
    unfold draw
    rw [if_pos hl, List.filter_append]
    simp [sub_self, hw]

/-- Witness for C7: both branches evaluated at concrete levels 0 and 5. -/
theorem claim_C7_witness :
    draw 5000 0 100 [⟨-10000, 3⟩] = [] ∧
    draw 5000 5 100 ([] : List AudioSample) = [⟨100, 5⟩] := by
  constructor
  · have h := (claim_C7_ingest_appends 5000 0 100 [⟨-10000, 3⟩]).1
      (le_refl 0)
    rw [h]
    decide
  · have h := (claim_C7_ingest_appends 5000 5 100 []).2 (by norm_num)
      (by norm_num)
    rw [h]
    rfl

/-- Claim C9: on a non-empty snapshot the nearest-sample query returns a
sample of the snapshot minimising the pixel distance
`|x(sample.timestamp) - pointerX|` under the chart's time-to-pixel map,
and on an empty snapshot no tooltip is produced. -/
theorem claim_C9_nearest_sample :
    ∀ (now timeWindow : ℤ) (width x : ℚ) (p : AudioSample)
      (rest : List AudioSample),
      (∃ s, closestPoint now timeWindow width x (p :: rest) = some s ∧
        s ∈ p :: rest ∧
        ∀ q ∈ p :: rest,
          |xCoord now timeWindow width s.timestamp - x| ≤
            |xCoord now timeWindow width q.timestamp - x|) ∧
      closestPoint now timeWindow width x [] = none := by
  intro now timeWindow width x p rest
  refine ⟨?_, rfl⟩
  have h := foldl_closest_spec
    (fun smp => |xCoord now timeWindow width smp.timestamp - x|) p rest
  exact ⟨_, rfl, h.1, h.2⟩

/-- Witness for C9: the query evaluated on a concrete two-sample
snapshot. -/
theorem claim_C9_witness :
    ∃ s, closestPoint 5000 5000 400 10 [⟨0, 50⟩, ⟨4000, 80⟩] = some s ∧
      s ∈ [(⟨0, 50⟩ : AudioSample), ⟨4000, 80⟩] ∧
      ∀ q ∈ [(⟨0, 50⟩ : AudioSample), ⟨4000, 80⟩],
        |xCoord 5000 5000 400 s.timestamp - 10| ≤
          |xCoord 5000 5000 400 q.timestamp - 10| :=
  (claim_C9_nearest_sample 5000 5000 400 10 ⟨0, 50⟩ [⟨4000, 80⟩]).1

/-- Counterexample to C8 as stated: with a custom sound named "zz" of type
"important" and an event of sound type "zzqq", bidirectional containment
holds ("zzqq" contains "zz"), yet the code's custom-sound test — which
only asks whether the custom name contains the event's sound type — does
not match, no static taxonomy matches either, and the engine creates no
notification. -/
theorem claim_C8_counterexample :
    CustomBidirectionalMatch [⟨"zz", "important"⟩] "zzqq" ∧
    isCustomImportant [⟨"zz", "important"⟩] "zzqq" = false ∧
    isCriticalSound "zzqq" = false ∧ isImportantSound "zzqq" = false ∧
    handleSoundDetected (fun _ => false) (fun _ => [⟨"zz", "important"⟩])
        ⟨"zzqq", 1, "device-A", 0, none⟩ 0 ⟨[], []⟩ = (⟨[], []⟩, true) := by
  refine ⟨⟨⟨"zz", "important"⟩, by decide, rfl, Or.inr ⟨[], ['q', 'q'], by decide⟩⟩,
    by decide, by decide, by decide, by decide⟩

/-- Claim C8 (amended): classification against the static critical and
household taxonomies is case-insensitive bidirectional substring
containment, but the per-device custom "important" sounds match only one
way — the custom sound's name must contain the event's sound type (after
lowercasing), not conversely. -/
theorem claim_C8_matching_semantics :
    ∀ soundType : String,
      (isCriticalSound soundType = true ↔
        StaticMatch CRITICAL_SOUNDS soundType) ∧
      (isImportantSound soundType = true ↔
        StaticMatch HOUSEHOLD_SOUNDS soundType) ∧
      ∀ sounds : List CustomSound,
        (isCustomImportant sounds soundType = true ↔
          ∃ s ∈ sounds, s.sound_type = "important" ∧
            lowerChars soundType <:+: lowerChars s.name) := by
  intro soundType
  refine ⟨?_, ?_, ?_⟩
  · simp only [isCriticalSound, List.any_eq_true, Bool.or_eq_true,
      includesLower_iff, StaticMatch, BidirectionalMatch]
    constructor
    · rintro ⟨c, hc, h | h⟩
      · exact ⟨c, hc, Or.inr h⟩
      · exact ⟨c, hc, Or.inl h⟩
    · rintro ⟨c, hc, h | h⟩
      · exact ⟨c, hc, Or.inr h⟩
      · exact ⟨c, hc, Or.inl h⟩
  · simp only [isImportantSound, List.any_eq_true, Bool.or_eq_true,
      includesLower_iff, StaticMatch, BidirectionalMatch]
    constructor
    · rintro ⟨c, hc, h | h⟩
      · exact ⟨c, hc, Or.inr h⟩
      · exact ⟨c, hc, Or.inl h⟩
    · rintro ⟨c, hc, h | h⟩
      · exact ⟨c, hc, Or.inr h⟩
      · exact ⟨c, hc, Or.inl h⟩
  · intro sounds
    simp only [isCustomImportant, List.any_eq_true, Bool.and_eq_true,
      beq_iff_eq, includesLower_iff]

/-- Witness for C8 (amended): the matching equivalences instantiated at
"Fire alarm", whose static critical match is exhibited concretely. -/
theorem claim_C8_witness :
    StaticMatch CRITICAL_SOUNDS "Fire alarm" :=
  ((claim_C8_matching_semantics "Fire alarm").1).mp (by decide)

/-- Claim C10: the duplicate test ignores `deviceId` — whenever some
retained notification shares the incoming event's `soundType` with a
timestamp within 2000 ms, the handler leaves the store unchanged, whatever
the two device ids are. -/
theorem claim_C10_dedup_ignores_device :
    ∀ (excluded : String → Bool)
      (customSounds : String → List CustomSound) (e : SoundEvent)
      (now : ℤ) (st : EngineState) (n : Notification),
      n ∈ st.notifications → n.soundType = e.sound_type →
      |n.timestamp - e.timestamp| < 2000 →
      (handleSoundDetected excluded customSounds e now st).1.notifications =
        st.notifications := by
  intro excluded customSounds e now st n hmem hsound ht
  unfold handleSoundDetected
  split
  · rfl
  · dsimp only
    split
    · show insertNotification (mkNotification e now _ _) st.notifications = _
      unfold insertNotification
      rw [if_pos]
      exact List.any_eq_true.mpr
        ⟨n, hmem, by simp [mkNotification, hsound, ht]⟩
    · rfl

/-- Witness for C10: two same-type notifications 1000 ms apart on
different devices — the second event is dropped. -/
theorem claim_C10_witness :
    (handleSoundDetected (fun _ => false) (fun _ => [])
        ⟨"Fire alarm", 1, "device-B", 1000, none⟩ 1000
        ⟨[mkNotification (fireEvent 0) 0 true false], []⟩).1.notifications =
      [mkNotification (fireEvent 0) 0 true false] :=
  claim_C10_dedup_ignores_device (fun _ => false) (fun _ => [])
    ⟨"Fire alarm", 1, "device-B", 1000, none⟩ 1000
    ⟨[mkNotification (fireEvent 0) 0 true false], []⟩
    (mkNotification (fireEvent 0) 0 true false)
    (by decide) (by decide) (by decide)

end SoundSentinel
